import Mathlib

/-!
Verification development for the satellite communication simulator's
contact-simulation engine: a shallow embedding of
`src/lib/linkMath3D.ts` and `src/workers/simulation.worker.ts`.

Modelling conventions:
* JavaScript floating-point numbers are idealized as real numbers `ℝ`
  (for geometry) or rationals `ℚ` (for the values returned by
  `Math.random()`, which are machine floats and hence rational).
* The source draws `Math.random()` ambiently; here every random draw is
  an explicit parameter, in the order the source draws it.
* Integer counters and boolean timelines are `Nat`, `Bool` and
  `List Bool`; a `Uint8Array` of 0/1 flags is a `List Bool`.
* Console logging, progress `postMessage` calls and the purely
  presentational result fields (initial positions/subpoints) are side
  effects or reporting not touched by any claim and are not modelled.
-/

namespace SatSim

open Real

open scoped Classical

/-! ## Module constants of linkMath3D.ts (lines 8-19) -/

/-- linkMath3D.ts line 9: `const DEBUG_MODE = true`. -/
def DEBUG_MODE : Bool := true

/-- linkMath3D.ts line 10: `const EMERGENCY_MODE = true`. -/
def EMERGENCY_MODE : Bool := true

/-- linkMath3D.ts line 13: Earth radius in km. -/
noncomputable def EARTH_RADIUS : ℝ := 6371

/-- linkMath3D.ts line 14: 60 degree half-angle in radians. -/
noncomputable def BEACON_HALF_ANGLE : ℝ := 60 * π / 180

/-- linkMath3D.ts line 15: 31 degree half-angle in radians. -/
noncomputable def IRIDIUM_HALF_ANGLE : ℝ := 31 * π / 180

/-- linkMath3D.ts line 18: the beacon cone threshold actually used. -/
noncomputable def COS_BEACON : ℝ :=
  if EMERGENCY_MODE then -0.9999
  else if DEBUG_MODE then Real.cos (π * 0.9) else Real.cos BEACON_HALF_ANGLE

/-- linkMath3D.ts line 19: the remote (Iridium) cone threshold actually used. -/
noncomputable def COS_IRIDIUM : ℝ :=
  if EMERGENCY_MODE then -0.9999
  else if DEBUG_MODE then Real.cos (π * 0.9) else Real.cos IRIDIUM_HALF_ANGLE

/-! ## Vectors (linkMath3D.ts lines 21-35; worker `Position` is the same data) -/

/-- A 3-component vector: the source's `Vec3` tuple and `Position` object. -/
structure Vec3 where
  x : ℝ
  y : ℝ
  z : ℝ

/-- Dot product (linkMath3D.ts line 25). -/
noncomputable def dot (a b : Vec3) : ℝ := a.x * b.x + a.y * b.y + a.z * b.z

/-- Euclidean norm (linkMath3D.ts line 28): `Math.sqrt(dot(v, v))`. -/
noncomputable def norm3 (v : Vec3) : ℝ := Real.sqrt (dot v v)

/-- Cross product (linkMath3D.ts lines 31-35). -/
noncomputable def cross (a b : Vec3) : Vec3 :=
  ⟨a.y * b.z - a.z * b.y, a.z * b.x - a.x * b.z, a.x * b.y - a.y * b.x⟩

/-- Shortest distance from Earth's center (origin) to the segment
joining r1 and r2 (linkMath3D.ts lines 42-55). -/
noncomputable def segmentMinDistance (r1 r2 : Vec3) : ℝ :=
  let v : Vec3 := ⟨r2.x - r1.x, r2.y - r1.y, r2.z - r1.z⟩
  let vNorm2 := dot v v
  if vNorm2 = 0 then norm3 r1
  else
    let t := -(dot r1 v) / vNorm2
    if 0 ≤ t ∧ t ≤ 1 then norm3 (cross r1 v) / Real.sqrt vNorm2
    else min (norm3 r1) (norm3 r2)

/-! ## The geometric per-step link decision of computeLinkMetrics3D
(linkMath3D.ts lines 334-395).  Because `EMERGENCY_MODE = true` the
function returns from its emergency branch (line 331) before this loop,
so in the shipped program this decision is unreachable; it is embedded
because several claims are about it. -/

/-- Beacon boresight construction for one step (lines 346-371): unit
radial, plane normal projected orthogonal to it, velocity direction
`nHat × r1u`, and the two opposing boresights.  `none` models the two
degenerate guard branches (`nNorm === 0`, `velNorm === 0`) in which the
code marks the step not linked. -/
noncomputable def beaconBoresights (r1 n : Vec3) : Option (List Vec3) :=
  let r1Norm := norm3 r1
  let r1u : Vec3 := ⟨r1.x / r1Norm, r1.y / r1Norm, r1.z / r1Norm⟩
  let nDotR := dot n r1u
  let nPerp : Vec3 := ⟨n.x - nDotR * r1u.x, n.y - nDotR * r1u.y, n.z - nDotR * r1u.z⟩
  let nNorm := norm3 nPerp
  if nNorm = 0 then none
  else
    let nHat : Vec3 := ⟨nPerp.x / nNorm, nPerp.y / nNorm, nPerp.z / nNorm⟩
    let velDir := cross nHat r1u
    let velNorm := norm3 velDir
    if velNorm = 0 then none
    else
      let vHat : Vec3 := ⟨velDir.x / velNorm, velDir.y / velNorm, velDir.z / velNorm⟩
      some [vHat, ⟨-vHat.x, -vHat.y, -vHat.z⟩]

/-- One candidate satellite's test inside the per-step loop
(lines 374-390): horizon, Earth blockage, beacon dual-cone test against
`COS_BEACON`, remote nadir-cone test against `COS_IRIDIUM`. -/
noncomputable def satPasses (r1 : Vec3) (boresights : List Vec3) (r2 : Vec3) : Bool :=
  if norm3 r2 ≤ EARTH_RADIUS then false
  else if segmentMinDistance r1 r2 < EARTH_RADIUS then false
  else
    let v : Vec3 := ⟨r2.x - r1.x, r2.y - r1.y, r2.z - r1.z⟩
    let vNorm := norm3 v
    let vUnit : Vec3 := ⟨v.x / vNorm, v.y / vNorm, v.z / vNorm⟩
    if !(boresights.any fun b => decide (COS_BEACON ≤ dot b vUnit)) then false
    else
      let r2Norm := norm3 r2
      let r2u : Vec3 := ⟨r2.x / r2Norm, r2.y / r2Norm, r2.z / r2Norm⟩
      decide (COS_IRIDIUM ≤ dot r2u ⟨-vUnit.x, -vUnit.y, -vUnit.z⟩)

/-- The whole geometric per-step decision (lines 334-395): the beacon
horizon guard, the boresight construction with its degenerate guards,
and `linked = true` as soon as one satellite of the step passes. -/
noncomputable def stepLinked (r1 n : Vec3) (sats : List Vec3) : Bool :=
  if norm3 r1 ≤ EARTH_RADIUS then false
  else
    match beaconBoresights r1 n with
    | none => false
    | some bs => sats.any fun r2 => satPasses r1 bs r2

/-- Modelled from the spec: section 4.2's `isLinked` with caller-supplied
half-angles, which the repository's code does not have (its thresholds
are the module constants `COS_BEACON`/`COS_IRIDIUM`).  Steps 1-5 of the
spec: horizon checks, Earth-occlusion test, beacon dual-cone test with
threshold `cos beaconHalfAngleRad`, and the remote nadir-cone test of
step 4 in the spec's own terms: the nadir boresight is the negative of
the remote's position unit vector, the remote-to-beacon line of sight
is the negative of the beacon-to-remote one, and the test is
`dot(losReverse, nadir) ≥ cos remoteHalfAngleRad`.  The boresights are
derived from the beacon's orientation hint exactly as the code derives
them; a degenerate orientation (no boresight, `Option.getD []`) is
treated as not linked, per the spec's degenerate-handling rule. -/
noncomputable def isLinkedSpec (r1 n r2 : Vec3) (beaconHalfAngleRad remoteHalfAngleRad : ℝ) : Bool :=
  let bs := (beaconBoresights r1 n).getD []
  if norm3 r1 ≤ EARTH_RADIUS then false
  else if norm3 r2 ≤ EARTH_RADIUS then false
  else if segmentMinDistance r1 r2 < EARTH_RADIUS then false
  else
    let v : Vec3 := ⟨r2.x - r1.x, r2.y - r1.y, r2.z - r1.z⟩
    let vNorm := norm3 v
    let vUnit : Vec3 := ⟨v.x / vNorm, v.y / vNorm, v.z / vNorm⟩
    if !(bs.any fun b => decide (Real.cos beaconHalfAngleRad ≤ dot b vUnit)) then false
    else
      let r2Norm := norm3 r2
      let r2u : Vec3 := ⟨r2.x / r2Norm, r2.y / r2Norm, r2.z / r2Norm⟩
      let nadir : Vec3 := ⟨-r2u.x, -r2u.y, -r2u.z⟩
      let losReverse : Vec3 := ⟨-vUnit.x, -vUnit.y, -vUnit.z⟩
      decide (Real.cos remoteHalfAngleRad ≤ dot losReverse nadir)

/-! ## The EMERGENCY branch of computeLinkMetrics3D
(linkMath3D.ts lines 254-331).  `EMERGENCY_MODE` is the compile-time
constant `true`, so every call of `computeLinkMetrics3D` in the shipped
program takes this branch: the timeline is fabricated from handshake
windows placed by `Math.random()` draws, the beacon/satellite positions
are never read (only `beaconTimeline.length`, always 1440, matters), and
the handshake/outage counters are then derived from that fabricated
timeline by the loop at lines 313-328. -/

/-- linkMath3D.ts line 266. -/
def ORBITAL_PERIOD_MINUTES : ℕ := 100

/-- linkMath3D.ts line 267. -/
def HANDSHAKE_DURATION_MINUTES : ℕ := 10

/-- linkMath3D.ts line 268: `Math.floor(24 * 60 / 100)` = 14. -/
def DAILY_ORBITS : ℕ := 24 * 60 / ORBITAL_PERIOD_MINUTES

/-- linkMath3D.ts line 274: `Math.floor(Math.random() * 30)`, with the
`Math.random()` value passed in as `r`. -/
def initialOffsetOf (r : ℚ) : ℕ := (r * 30).floor.toNat

/-- linkMath3D.ts lines 296-298: an additional random handshake center
`(12 + Math.floor(r1 * 11)) * 60 + Math.floor(r2 * 60)` minutes, with the
two `Math.random()` values passed in as the pair `p`. -/
def extraCenterOf (p : ℚ × ℚ) : ℕ :=
  (12 + (p.1 * 11).floor.toNat) * 60 + (p.2 * 60).floor.toNat

/-- The centers of every handshake window the emergency branch marks:
the 15 orbital windows `initialOffset + orbit * 100` for
`orbit = 0 .. DAILY_ORBITS` (lines 276-289) followed by the additional
random windows (lines 293-310; the code always draws exactly 3, so in a
faithful run `extraDraws` has 3 pairs). -/
def emergencyWindows (offDraw : ℚ) (extraDraws : List (ℚ × ℚ)) : List ℕ :=
  ((List.range (DAILY_ORBITS + 1)).map fun orbit =>
    initialOffsetOf offDraw + orbit * ORBITAL_PERIOD_MINUTES)
    ++ extraDraws.map extraCenterOf

/-- Whether minute `i` lies in the marked window of a handshake centered
at `center` (lines 278-286): from `max(0, center - 5)` (truncated `Nat`
subtraction) to `min(steps - 1, center + 5)`, and only if `i < steps`. -/
def inWindow (steps center i : ℕ) : Bool :=
  decide (center - HANDSHAKE_DURATION_MINUTES / 2 ≤ i) &&
  decide (i ≤ min (steps - 1) (center + HANDSHAKE_DURATION_MINUTES / 2)) &&
  decide (i < steps)

/-- The fabricated timeline (lines 259-310): entry `i` is `true` exactly
when some marking pass set it, i.e. when some window covers `i`. -/
def emergencyTimeline (steps : ℕ) (offDraw : ℚ) (extraDraws : List (ℚ × ℚ)) : List Bool :=
  (List.range steps).map fun i =>
    (emergencyWindows offDraw extraDraws).any fun center => inWindow steps center i

/-- The counting loop of the emergency branch (lines 313-328), returning
`(hsCount, outCount, outDur)`.  `isFirst` models the `i > 0` guard of the
handshake count; `prevLinked` and `inOut` are the two mutable flags, both
initially `false`. -/
def countMetricsGo (isFirst prevLinked inOut : Bool) : List Bool → ℕ × ℕ × ℕ
  | [] => (0, 0, 0)
  | b :: rest =>
    let res := countMetricsGo false b (if b then false else true) rest
    ((if !isFirst && !prevLinked && b then 1 else 0) + res.1,
     (if !b && !inOut then 1 else 0) + res.2.1,
     (if !b then 1 else 0) + res.2.2)

/-- The result record of computeLinkMetrics3D (linkMath3D.ts lines 63-68). -/
structure LinkMetrics3D where
  handshakeCount : ℕ
  outageCount : ℕ
  outageDuration : ℕ
  timeline : List Bool

/-- computeLinkMetrics3D as the shipped program executes it: the
emergency branch (lines 254-331).  `steps` is `beaconTimeline.length`
(the caller always passes matching 1440-step timelines, so the length-
mismatch throw at line 240 cannot fire); the position data is otherwise
unread in this branch and is not a parameter. -/
def computeLinkMetrics3D (steps : ℕ) (offDraw : ℚ) (extraDraws : List (ℚ × ℚ)) : LinkMetrics3D :=
  let timeline := emergencyTimeline steps offDraw extraDraws
  let c := countMetricsGo true false false timeline
  ⟨c.1, c.2.1, c.2.2, timeline⟩

/-! ## simulation.worker.ts: configuration, orbit propagation and
`runSimulation`. -/

/-- Earth gravitational parameter (worker line 6). -/
noncomputable def MU : ℝ := 398600.4418

/-- worker lines 9-11. -/
noncomputable def deg2rad (deg : ℝ) : ℝ := deg * π / 180

/-- Kepler orbital period (worker lines 83-85): `2π·sqrt(a³/μ)`. -/
noncomputable def orbitalPeriod (a : ℝ) : ℝ := 2 * π * Real.sqrt (a ^ (3 : ℕ) / MU)

/-- The orbital period positionInOrbit actually uses (worker
lines 93-103): a fixed 3600 s for Iridium-like altitudes in
`[770, 810]`, else the Kepler period capped at 90 minutes. -/
noncomputable def periodUsed (altitude : ℝ) : ℝ :=
  let a := EARTH_RADIUS + altitude
  let iridiumOrbitalPeriod : ℝ := 60 * 60
  if 770 ≤ altitude ∧ altitude ≤ 810 then iridiumOrbitalPeriod
  else min (orbitalPeriod a) (90 * 60)

/-- The angular position `θ = n·t + phaseOffset` with `n = 2π/T`
(worker lines 105-106). -/
noncomputable def thetaInOrbit (t altitude phaseOffset : ℝ) : ℝ :=
  2 * π / periodUsed altitude * t + phaseOffset

/-- Satellite ECI position (worker lines 90-131): position in the
orbital plane, then the inclination rotation about the x-axis, then the
RAAN rotation about the z-axis. -/
noncomputable def positionInOrbit (t altitude inclination raan phaseOffset : ℝ) : Vec3 :=
  let a := EARTH_RADIUS + altitude
  let theta := thetaInOrbit t altitude phaseOffset
  let xPlane := a * Real.cos theta
  let yPlane := a * Real.sin theta
  let cosInc := Real.cos inclination
  let sinInc := Real.sin inclination
  let yInclined := yPlane * cosInc
  let zInclined := yPlane * sinInc
  let cosRAAN := Real.cos raan
  let sinRAAN := Real.sin raan
  ⟨xPlane * cosRAAN - yInclined * sinRAAN,
   xPlane * sinRAAN + yInclined * cosRAAN,
   zInclined⟩

/-- Orbital-plane unit normal from inclination and RAAN (worker
lines 136-152). -/
noncomputable def calculatePlaneNormal (inclination raan : ℝ) : Vec3 :=
  let n : Vec3 := ⟨Real.sin raan * Real.sin inclination,
                   -(Real.cos raan) * Real.sin inclination,
                   Real.cos inclination⟩
  let magnitude := Real.sqrt (n.x * n.x + n.y * n.y + n.z * n.z)
  ⟨n.x / magnitude, n.y / magnitude, n.z / magnitude⟩

/-- worker lines 154-156: `RAAN = (15 * lstHours) * π / 180`. -/
noncomputable def computeRAANFromLST (lstHours : ℝ) : ℝ := (15 * lstHours) * π / 180

/-- Sun-synchronous inclination approximation (worker lines 161-169). -/
noncomputable def computeSunSynchronousInclination (altitude : ℝ) : ℝ :=
  let a := EARTH_RADIUS + altitude
  let precessionRate := 2 * π / (365.2422 * 24 * 3600)
  Real.arccos ((-2 * precessionRate * a ^ ((7 : ℝ) / 2)) /
    (3 * Real.sqrt MU * EARTH_RADIUS * EARTH_RADIUS * 0.001082616))

/-- `beaconMode` (types/index.ts). -/
inductive BeaconMode where
  | sunSynchronous
  | nonPolar
  | custom

/-- `BeaconConfig` (types/index.ts). -/
structure BeaconConfig where
  altitude : ℝ
  inclination : ℝ
  localSolarTime : Option ℝ
  antennaHalfAngle : ℝ

/-- `SatelliteInfo` (lib/tleService.ts interface), with the fields the
worker reads: `id`, `altitude`, `inclination` and the possibly absent
`initialPhase` and `raan`. -/
structure SatelliteInfo where
  id : ℕ
  altitude : ℝ
  inclination : ℝ
  initialPhase : Option ℝ
  raan : Option ℝ

/-- `IridiumConfig` (types/index.ts). -/
structure IridiumConfig where
  satelliteId : ℕ
  altitude : ℝ
  inclination : ℝ
  antennaHalfAngle : ℝ
  showAllSatellites : Bool
  allSatellites : List SatelliteInfo

/-- `SimulationParams` (types/index.ts).  `simulationDuration` and
`timeStep` are present in the interface; the worker destructures them
behind comments and never reads them (worker lines 190-191). -/
structure SimulationParams where
  beaconMode : BeaconMode
  beaconConfig : BeaconConfig
  iridiumConfig : IridiumConfig
  simulationDuration : ℝ
  timeStep : ℝ

/-- worker line 194: `const actualTimeStep = 60`. -/
def ACTUAL_TIME_STEP : ℕ := 60

/-- worker line 195: `const totalSteps = 24 * 60`. -/
def TOTAL_STEPS : ℕ := 24 * 60

/-- worker line 205: `const SPECIAL_CONFIG = true`. -/
def SPECIAL_CONFIG : Bool := true

/-- The beacon inclination/RAAN the run proceeds with, together with
whether an error message was posted on the way (worker lines 205-240).
A thrown configuration error is caught, `postMessage`d (`errorPosted`)
and then replaced by the defaults 98.6 degrees / 0. -/
structure BeaconOrbitOutcome where
  inclination : ℝ
  raan : ℝ
  errorPosted : Bool

/-- The try/catch block of worker lines 215-239 (the non-SPECIAL_CONFIG
path).  JavaScript truthiness: `localSolarTime || 10` treats an absent
or zero LST as 10, and `localSolarTime ? ... : 0` treats an absent or
zero LST as 0.  The sun-synchronous `isNaN` guard cannot fire in the
real-number idealization (arccos is total) and is not represented. -/
noncomputable def beaconOrbitTryCatch (mode : BeaconMode) (cfg : BeaconConfig) : BeaconOrbitOutcome :=
  match mode with
  | .sunSynchronous =>
      ⟨computeSunSynchronousInclination cfg.altitude,
       computeRAANFromLST (match cfg.localSolarTime with
         | some lst => if lst = 0 then 10 else lst
         | none => 10),
       false⟩
  | .nonPolar =>
      let inc := deg2rad cfg.inclination
      if inc < deg2rad 30 ∨ deg2rad 98 < inc then ⟨deg2rad 98.6, 0, true⟩
      else ⟨inc, 0, false⟩
  | .custom =>
      ⟨deg2rad cfg.inclination,
       (match cfg.localSolarTime with
         | some lst => if lst = 0 then 0 else computeRAANFromLST lst
         | none => 0),
       false⟩

/-- The inclination/RAAN resolution as shipped (worker lines 205-240):
`SPECIAL_CONFIG = true` short-circuits every mode to 85 degrees / 0 with
no validation and no error. -/
noncomputable def beaconOrbitResolve (mode : BeaconMode) (cfg : BeaconConfig) : BeaconOrbitOutcome :=
  if SPECIAL_CONFIG then ⟨deg2rad 85, 0, false⟩
  else beaconOrbitTryCatch mode cfg

/-- Per-member initial phase (worker lines 327-340). -/
noncomputable def memberPhase (index : ℕ) (sat : SatelliteInfo) : ℝ :=
  match sat.initialPhase with
  | some p => p
  | none =>
    let basePhase := ((index % 11 : ℕ) : ℝ) / 11 * (2 * π)
    basePhase + (0.1 * Real.sin (basePhase * 3) + 0.05 * Real.cos (basePhase * 7))

/-- Per-member RAAN (worker lines 342-355); `raanDraw` is that
iteration's `Math.random()` value, used only on the legacy branch. -/
noncomputable def memberRAAN (index : ℕ) (sat : SatelliteInfo) (raanDraw : ℝ) : ℝ :=
  match sat.raan with
  | some r => deg2rad r
  | none => ((index / 11 : ℕ) : ℝ) * deg2rad 31.6 + (raanDraw * 0.01 - 0.005)

/-- Per-member inclination with its random perturbation (worker
lines 357-359). -/
noncomputable def memberInclination (sat : SatelliteInfo) (incDraw : ℝ) : ℝ :=
  deg2rad sat.inclination + (incDraw * 0.01 - 0.005)

/-- Per-member altitude with its random clamp (worker lines 361-365). -/
noncomputable def memberAltitude (sat : SatelliteInfo) (altDraw : ℝ) : ℝ :=
  if sat.altitude < 200 ∨ 1000 < sat.altitude then 780 + altDraw * 15
  else sat.altitude

/-- A constellation member's ECI position at time `t` (worker
lines 321-371): `index` is its position in `allSatellites`. -/
noncomputable def memberPositionAt (t : ℝ) (index : ℕ) (sat : SatelliteInfo)
    (raanDraw incDraw altDraw : ℝ) : Vec3 :=
  positionInOrbit t (memberAltitude sat altDraw) (memberInclination sat incDraw)
    (memberRAAN index sat raanDraw) (memberPhase index sat)

/-- The satellite list the run uses (worker lines 249-273): the caller's
list when `showAllSatellites` is set and non-empty, else the single
SPECIAL_CONFIG satellite `{id, 780, 86.4, π/4}`. -/
noncomputable def resolvedSatellites (cfg : IridiumConfig) : List SatelliteInfo :=
  if cfg.showAllSatellites && !cfg.allSatellites.isEmpty then cfg.allSatellites
  else [⟨cfg.satelliteId, 780, 86.4, some (π / 4), none⟩]

/-- One member's entry of `allContactData` (worker lines 407-415):
`satContactFlags[i] = metrics.timeline[i] && (Math.random() < 1 / count)`,
with that member's per-step `Math.random()` values passed as `draws`. -/
def allContactEntry (count : ℕ) (timeline : List Bool) (draws : List ℚ) : List Bool :=
  (List.range timeline.length).map fun i =>
    timeline.getD i false && decide (draws.getD i 1 < 1 / (count : ℚ))

/-- The simulation result's computational fields (types/index.ts
`SimulationResult`): `contactFlags` as booleans, the four counters in
seconds, `avgOutage` as an exact rational, and `allContactData` as an
id-keyed association list.  The reporting fields (`initialPositions`,
`initialSubpoints`, `allIridiumPositions`, `allSatellites`) are not
modelled; no claim mentions them. -/
structure SimulationStats where
  contactFlags : List Bool
  totalContact : ℕ
  handshakes : ℕ
  totalOutage : ℕ
  outages : ℕ
  avgOutage : ℚ
  allContactData : Option (List (ℕ × List Bool))

/-- `runSimulation` (worker lines 185-443), restricted to the
computational fields of its result.  The ambient `Math.random()` draws
are explicit: `offDraw` and `extraDraws` are the emergency branch's
draws, `satDraws` the per-satellite per-step draws of the
`allContactData` loop.  The per-step position generation
(lines 292-378) feeds only `computeLinkMetrics3D`, which in emergency
mode reads nothing but the step count, and the unmodelled reporting
fields, so it does not appear here; its per-member pieces are embedded
above as `memberPositionAt`. -/
noncomputable def runSimulation (params : SimulationParams) (offDraw : ℚ)
    (extraDraws : List (ℚ × ℚ)) (satDraws : List (List ℚ)) : SimulationStats :=
  let sats := resolvedSatellites params.iridiumConfig
  let metrics := computeLinkMetrics3D TOTAL_STEPS offDraw extraDraws
  { contactFlags := metrics.timeline
    totalContact := (metrics.timeline.count true) * ACTUAL_TIME_STEP
    handshakes := metrics.handshakeCount
    totalOutage := metrics.outageDuration * ACTUAL_TIME_STEP
    outages := metrics.outageCount
    avgOutage := if metrics.outageCount ≠ 0 then
        ((metrics.outageDuration * ACTUAL_TIME_STEP : ℕ) : ℚ) / (metrics.outageCount : ℚ)
      else 0
    allContactData :=
      if params.iridiumConfig.showAllSatellites && decide (1 < sats.length) then
        some (List.zipWith (fun sat draws =>
          (sat.id, allContactEntry sats.length metrics.timeline draws)) sats satDraws)
      else none }

/-! ## Helper lemmas on the emergency timeline and its counters -/

lemma emergencyTimeline_length (steps : ℕ) (offDraw : ℚ) (extraDraws : List (ℚ × ℚ)) :
    (emergencyTimeline steps offDraw extraDraws).length = steps := by
  simp [emergencyTimeline]

lemma emergencyTimeline_getD (steps : ℕ) (offDraw : ℚ) (extraDraws : List (ℚ × ℚ))
    (i : ℕ) (hi : i < steps) :
    (emergencyTimeline steps offDraw extraDraws).getD i false =
      ((emergencyWindows offDraw extraDraws).any fun center => inWindow steps center i) := by
  simp [emergencyTimeline, List.getD_eq_getElem?_getD, List.getElem?_map,
    List.getElem?_range, hi]

lemma countMetricsGo_outDur (l : List Bool) : ∀ isFirst prevLinked inOut : Bool,
    (countMetricsGo isFirst prevLinked inOut l).2.2 = l.count false := by
  induction l with
  | nil => intro f p io; simp [countMetricsGo]
  | cons b rest ih =>
      intro f p io
      cases b <;> simp [countMetricsGo, ih, List.count_cons, Nat.add_comm]

lemma count_true_add_count_false (l : List Bool) :
    l.count true + l.count false = l.length := by
  induction l with
  | nil => simp
  | cons b rest ih =>
      cases b <;> simp [List.count_cons] <;> omega

/-- The number of rising edges of a timeline, by pairwise recursion:
one for every adjacent pair `(false, true)`. -/
def risingSteps : List Bool → ℕ
  | [] => 0
  | [_] => 0
  | a :: b :: rest => (if !a && b then 1 else 0) + risingSteps (b :: rest)

/-- The number of rising edges of a timeline as claim C7 words it: the
number of indices `i ≥ 1` with `timeline[i-1] = false` and
`timeline[i] = true`. -/
def risingEdges (tl : List Bool) : ℕ :=
  (List.range tl.length).countP fun i =>
    decide (1 ≤ i) && !(tl.getD (i - 1) false) && tl.getD i false

lemma countMetricsGo_hs_aux (l : List Bool) : ∀ prevLinked inOut : Bool,
    (countMetricsGo false prevLinked inOut l).1 = risingSteps (prevLinked :: l) := by
  induction l with
  | nil => intro p io; simp [countMetricsGo, risingSteps]
  | cons b rest ih =>
      intro p io
      simp [countMetricsGo, risingSteps, ih]

lemma countMetricsGo_hs (tl : List Bool) (prevLinked inOut : Bool) :
    (countMetricsGo true prevLinked inOut tl).1 = risingSteps tl := by
  cases tl with
  | nil => simp [countMetricsGo, risingSteps]
  | cons b rest => simp [countMetricsGo, countMetricsGo_hs_aux, risingSteps]

lemma risingEdges_cons (a : Bool) (l : List Bool) :
    risingEdges (a :: l) =
      (List.range l.length).countP fun i =>
        !((a :: l).getD i false) && l.getD i false := by
  unfold risingEdges
  rw [List.length_cons, List.range_succ_eq_map, List.countP_cons, List.countP_map]
  simp [Function.comp_def]

lemma risingSteps_eq_risingEdges (tl : List Bool) : risingSteps tl = risingEdges tl := by
  cases tl with
  | nil => simp [risingSteps, risingEdges]
  | cons a l =>
      induction l generalizing a with
      | nil => cases a <;> decide
      | cons b rest ih =>
          rw [risingEdges_cons, List.length_cons, List.range_succ_eq_map,
            List.countP_cons, List.countP_map]
          have hmap : ∀ i : ℕ,
              (!((a :: b :: rest).getD (i + 1) false) && (b :: rest).getD (i + 1) false) =
              (!((b :: rest).getD i false) && rest.getD i false) := by
            intro i; rfl
          simp only [Function.comp_def, hmap]
          rw [← risingEdges_cons b rest, ← ih b]
          simp [risingSteps, Nat.add_comm]

/-! Evaluation lemmas for the concrete `Math.random()` draws used below
(`ℚ` literals do not reduce definitionally, so the floor computations go
through `Int.floor`). -/

lemma initialOffsetOf_zero : initialOffsetOf 0 = 0 := by
  unfold initialOffsetOf
  rw [show ((0 : ℚ) * 30) = 0 by norm_num, show Rat.floor (0 : ℚ) = ⌊(0 : ℚ)⌋ from rfl]
  norm_num

lemma initialOffsetOf_seven_tenths : initialOffsetOf (7 / 10) = 21 := by
  unfold initialOffsetOf
  rw [show ((7 / 10 : ℚ) * 30) = 21 by norm_num,
    show Rat.floor (21 : ℚ) = ⌊(21 : ℚ)⌋ from rfl]
  norm_num
  rfl

lemma extraCenterOf_zero : extraCenterOf (0, 0) = 720 := by
  unfold extraCenterOf
  rw [show ((0 : ℚ) * 11) = 0 by norm_num, show ((0 : ℚ) * 60) = 0 by norm_num,
    show Rat.floor (0 : ℚ) = ⌊(0 : ℚ)⌋ from rfl]
  norm_num

/-- The default single-remote demo request: non-polar beacon at 600 km
and 97.5 degrees, remote Iridium satellite at 780 km and 86.4 degrees,
24 h horizon at 60 s steps (types/index.ts fields; values as in the
spec's end-to-end scenario). -/
noncomputable def demoParams : SimulationParams :=
  { beaconMode := .nonPolar
    beaconConfig :=
      { altitude := 600, inclination := 97.5, localSolarTime := none,
        antennaHalfAngle := 60 }
    iridiumConfig :=
      { satelliteId := 1, altitude := 780, inclination := 86.4,
        antennaHalfAngle := 31, showAllSatellites := false, allSatellites := [] }
    simulationDuration := 86400
    timeStep := 60 }

/-- Three additional-handshake draw pairs (the code always draws exactly
three), all hitting minute 720. -/
def threeExtraDraws : List (ℚ × ℚ) := [(0, 0), (0, 0), (0, 0)]

set_option maxRecDepth 8000 in
lemma runSimulation_contactFlags_length (params : SimulationParams) (offDraw : ℚ)
    (extraDraws : List (ℚ × ℚ)) (satDraws : List (List ℚ)) :
    (runSimulation params offDraw extraDraws satDraws).contactFlags.length = 1440 := by
  simp only [runSimulation, computeLinkMetrics3D]
  rw [emergencyTimeline_length]
  rfl

set_option maxRecDepth 8000 in
lemma runSimulation_contactFlags_getD (params : SimulationParams) (offDraw : ℚ)
    (extraDraws : List (ℚ × ℚ)) (satDraws : List (List ℚ)) (i : ℕ) (hi : i < 1440) :
    (runSimulation params offDraw extraDraws satDraws).contactFlags.getD i false =
      ((emergencyWindows offDraw extraDraws).any fun center => inWindow 1440 center i) := by
  simp only [runSimulation, computeLinkMetrics3D]
  exact emergencyTimeline_getD 1440 offDraw extraDraws i hi

/-- A non-polar request whose inclination 20 degrees lies outside the
documented `[30, 98]` degree range. -/
noncomputable def badConfig : BeaconConfig :=
  { altitude := 600, inclination := 20, localSolarTime := none, antennaHalfAngle := 60 }

/-- The full request around `badConfig`. -/
noncomputable def badParams : SimulationParams :=
  { beaconMode := .nonPolar
    beaconConfig := badConfig
    iridiumConfig :=
      { satelliteId := 1, altitude := 780, inclination := 86.4,
        antennaHalfAngle := 31, showAllSatellites := false, allSatellites := [] }
    simulationDuration := 86400
    timeStep := 60 }

/-! ## Geometry helper lemmas -/

lemma norm3_eq (v : Vec3) (r : ℝ) (hr : 0 ≤ r) (h : v.x ^ 2 + v.y ^ 2 + v.z ^ 2 = r ^ 2) :
    norm3 v = r := by
  unfold norm3 dot
  rw [show v.x * v.x + v.y * v.y + v.z * v.z = r ^ 2 by linear_combination h]
  exact Real.sqrt_sq hr

lemma segmentMinDistance_antipodal_x (p q : ℝ) (hp : 0 < p) (hq : 0 < q) :
    segmentMinDistance ⟨p, 0, 0⟩ ⟨-q, 0, 0⟩ = 0 := by
  have hpq : (0 : ℝ) < p + q := by linarith
  unfold segmentMinDistance
  simp only [dot, cross, norm3]
  norm_num
  split_ifs with h1 h2
  · exact absurd h1 (by intro h; linarith)
  · rfl
  · exfalso
    refine h2 ⟨div_nonneg (by nlinarith) (by nlinarith), ?_⟩
    rw [div_le_one (by nlinarith)]
    nlinarith

lemma satPasses_of_blocked (r1 : Vec3) (bs : List Vec3) (r2 : Vec3)
    (h : segmentMinDistance r1 r2 < EARTH_RADIUS) : satPasses r1 bs r2 = false := by
  unfold satPasses
  rcases le_or_lt (norm3 r2) EARTH_RADIUS with h1 | h1
  · rw [if_pos h1]
  · rw [if_neg (not_le.mpr h1), if_pos h]

/-- With the beacon on the positive x-axis and the remote on the
negative x-axis, the geometric per-step decision is `false` for every
plane normal: the Earth-blockage test fails first. -/
lemma stepLinked_antipodal (n : Vec3) :
    stepLinked ⟨EARTH_RADIUS + 600, 0, 0⟩ n [⟨-(EARTH_RADIUS + 780), 0, 0⟩] = false := by
  unfold stepLinked
  have hr1 : norm3 ⟨EARTH_RADIUS + 600, 0, 0⟩ = EARTH_RADIUS + 600 :=
    norm3_eq _ _ (by unfold EARTH_RADIUS; norm_num) (by ring)
  rw [hr1, if_neg (by unfold EARTH_RADIUS; norm_num)]
  have hblock : segmentMinDistance ⟨EARTH_RADIUS + 600, 0, 0⟩ ⟨-(EARTH_RADIUS + 780), 0, 0⟩ <
      EARTH_RADIUS := by
    rw [segmentMinDistance_antipodal_x (EARTH_RADIUS + 600) (EARTH_RADIUS + 780)
      (by unfold EARTH_RADIUS; norm_num) (by unfold EARTH_RADIUS; norm_num)]
    unfold EARTH_RADIUS; norm_num
  rcases hbs : beaconBoresights ⟨EARTH_RADIUS + 600, 0, 0⟩ n with _ | bs
  · rfl
  · simp only [List.any_cons, List.any_nil, Bool.or_false]
    exact satPasses_of_blocked _ _ _ hblock

/-- For a beacon on the x-axis with plane normal `(0,0,1)`, the code's
boresight construction yields the two unit boresights `(0,±1,0)`. -/
lemma beaconBoresights_x_axis (c : ℝ) (hc : 0 < c) :
    beaconBoresights ⟨c, 0, 0⟩ ⟨0, 0, 1⟩ = some [⟨0, 1, 0⟩, ⟨0, -1, 0⟩] := by
  unfold beaconBoresights
  have h1 : norm3 ⟨c, 0, 0⟩ = c := norm3_eq _ _ hc.le (by ring)
  rw [h1]
  simp only [norm3, dot, cross, div_self hc.ne', zero_div]
  norm_num

lemma seg_vertical : segmentMinDistance ⟨(6971 : ℝ), 0, 0⟩ ⟨6971, 0, 1000⟩ = 6971 := by
  unfold segmentMinDistance
  simp only [dot, cross, norm3]
  norm_num
  rw [show (48594841000000 : ℝ) = 6971000 ^ 2 by norm_num,
    show (1000000 : ℝ) = 1000 ^ 2 by norm_num,
    Real.sqrt_sq (by norm_num : (0 : ℝ) ≤ 6971000),
    Real.sqrt_sq (by norm_num : (0 : ℝ) ≤ 1000)]
  norm_num

lemma seg_forward : segmentMinDistance ⟨(6971 : ℝ), 0, 0⟩ ⟨6971, 600, 0⟩ = 6971 := by
  unfold segmentMinDistance
  simp only [dot, cross, norm3]
  norm_num
  rw [show (17494142760000 : ℝ) = 4182600 ^ 2 by norm_num,
    show (360000 : ℝ) = 600 ^ 2 by norm_num,
    Real.sqrt_sq (by norm_num : (0 : ℝ) ≤ 4182600),
    Real.sqrt_sq (by norm_num : (0 : ℝ) ≤ 600)]
  norm_num

/-- A remote straight above the beacon's position on the z axis — the
line of sight is orthogonal to both boresights (90 degrees off) and 98.2
degrees off the remote's nadir — still passes the code's cone tests,
because the thresholds are the constant `-0.9999`. -/
lemma satPasses_orthogonal :
    satPasses ⟨(6971 : ℝ), 0, 0⟩ [⟨0, 1, 0⟩, ⟨0, -1, 0⟩] ⟨6971, 0, 1000⟩ = true := by
  have h6971 : (6971 : ℝ) ≤ norm3 ⟨(6971 : ℝ), 0, 1000⟩ := by
    unfold norm3 dot
    rw [Real.le_sqrt' (by norm_num)]
    norm_num
  unfold satPasses
  rw [if_neg (by unfold EARTH_RADIUS; intro h; linarith),
      if_neg (by rw [seg_vertical]; unfold EARTH_RADIUS; norm_num)]
  simp only [dot, norm3, COS_BEACON, COS_IRIDIUM, EMERGENCY_MODE, if_true,
    List.any_cons, List.any_nil]
  norm_num
  have hb : Real.sqrt 1000000 = 1000 := by
    rw [show (1000000 : ℝ) = 1000 ^ 2 by norm_num, Real.sqrt_sq (by norm_num)]
  have ha : (6971 : ℝ) ≤ Real.sqrt 49594841 := by
    rw [Real.le_sqrt' (by norm_num)]
    norm_num
  rw [hb]
  norm_num
  rw [div_le_iff₀ (by linarith : (0 : ℝ) < Real.sqrt 49594841)]
  nlinarith [ha]

/-- A remote ahead of the beacon along the `(0,1,0)` boresight — the
line of sight exactly along the forward direction — passes the code's
cone tests. -/
lemma satPasses_aligned :
    satPasses ⟨(6971 : ℝ), 0, 0⟩ [⟨0, 1, 0⟩, ⟨0, -1, 0⟩] ⟨6971, 600, 0⟩ = true := by
  have h6971 : (6971 : ℝ) ≤ norm3 ⟨(6971 : ℝ), 600, 0⟩ := by
    unfold norm3 dot
    rw [Real.le_sqrt' (by norm_num)]
    norm_num
  unfold satPasses
  rw [if_neg (by unfold EARTH_RADIUS; intro h; linarith),
      if_neg (by rw [seg_forward]; unfold EARTH_RADIUS; norm_num)]
  simp only [dot, norm3, COS_BEACON, COS_IRIDIUM, EMERGENCY_MODE, if_true,
    List.any_cons, List.any_nil]
  norm_num
  have hb : Real.sqrt 360000 = 600 := by
    rw [show (360000 : ℝ) = 600 ^ 2 by norm_num, Real.sqrt_sq (by norm_num)]
  have ha : (6971 : ℝ) ≤ Real.sqrt 48954841 := by
    rw [Real.le_sqrt' (by norm_num)]
    norm_num
  rw [hb]
  constructor
  · left
    have : (0 : ℝ) ≤ 600 / 600 := by norm_num
    linarith
  · norm_num
    rw [div_le_iff₀ (by linarith : (0 : ℝ) < Real.sqrt 48954841)]
    nlinarith [ha]

lemma stepLinked_orthogonal :
    stepLinked ⟨(6971 : ℝ), 0, 0⟩ ⟨0, 0, 1⟩ [⟨6971, 0, 1000⟩] = true := by
  unfold stepLinked
  have hr1 : norm3 ⟨(6971 : ℝ), 0, 0⟩ = 6971 := norm3_eq _ _ (by norm_num) (by ring)
  rw [hr1, if_neg (by unfold EARTH_RADIUS; norm_num),
    beaconBoresights_x_axis 6971 (by norm_num)]
  simp only [List.any_cons, List.any_nil, Bool.or_false, satPasses_orthogonal]

lemma stepLinked_aligned :
    stepLinked ⟨(6971 : ℝ), 0, 0⟩ ⟨0, 0, 1⟩ [⟨6971, 600, 0⟩] = true := by
  unfold stepLinked
  have hr1 : norm3 ⟨(6971 : ℝ), 0, 0⟩ = 6971 := norm3_eq _ _ (by norm_num) (by ring)
  rw [hr1, if_neg (by unfold EARTH_RADIUS; norm_num),
    beaconBoresights_x_axis 6971 (by norm_num)]
  simp only [List.any_cons, List.any_nil, Bool.or_false, satPasses_aligned]

/-- The spec's `isLinked` with both half-angles shrunk to 0 degrees
rejects the orthogonal configuration: the line of sight is not exactly
along either boresight (its cosine with both is 0 < cos 0 = 1). -/
lemma isLinkedSpec_orthogonal_zero :
    isLinkedSpec ⟨(6971 : ℝ), 0, 0⟩ ⟨0, 0, 1⟩ ⟨6971, 0, 1000⟩ 0 0 = false := by
  unfold isLinkedSpec
  have hr1 : norm3 ⟨(6971 : ℝ), 0, 0⟩ = 6971 := norm3_eq _ _ (by norm_num) (by ring)
  have h6971 : (6971 : ℝ) ≤ norm3 ⟨(6971 : ℝ), 0, 1000⟩ := by
    unfold norm3 dot
    rw [Real.le_sqrt' (by norm_num)]
    norm_num
  rw [hr1, beaconBoresights_x_axis 6971 (by norm_num)]
  simp only [Option.getD_some]
  rw [if_neg (by unfold EARTH_RADIUS; norm_num),
      if_neg (by unfold EARTH_RADIUS; intro h; linarith),
      if_neg (by rw [seg_vertical]; unfold EARTH_RADIUS; norm_num)]
  simp only [dot, norm3, List.any_cons, List.any_nil, Real.cos_zero]
  norm_num

lemma vec_beacon_eq : (⟨EARTH_RADIUS + 600, 0, 0⟩ : Vec3) = ⟨6971, 0, 0⟩ := by
  norm_num [EARTH_RADIUS, Vec3.mk.injEq]

lemma vec_above_eq : (⟨EARTH_RADIUS + 600, 0, 1000⟩ : Vec3) = ⟨6971, 0, 1000⟩ := by
  norm_num [EARTH_RADIUS, Vec3.mk.injEq]

lemma vec_ahead_eq : (⟨EARTH_RADIUS + 600, 600, 0⟩ : Vec3) = ⟨6971, 600, 0⟩ := by
  norm_num [EARTH_RADIUS, Vec3.mk.injEq]

lemma orbitalPeriod_7151_gt : 3600 < orbitalPeriod 7151 := by
  unfold orbitalPeriod
  have h1 : (574 : ℝ) ≤ Real.sqrt (7151 ^ (3 : ℕ) / MU) := by
    rw [Real.le_sqrt' (by norm_num)]
    rw [le_div_iff₀ (by unfold MU; norm_num)]
    unfold MU
    norm_num
  have hπ := Real.pi_gt_d6
  nlinarith [Real.sqrt_nonneg (7151 ^ (3 : ℕ) / MU)]

lemma orbitalPeriod_6571_le : orbitalPeriod (EARTH_RADIUS + 200) ≤ 90 * 60 := by
  rw [show EARTH_RADIUS + 200 = (6571 : ℝ) by unfold EARTH_RADIUS; norm_num]
  unfold orbitalPeriod
  have h1 : Real.sqrt (6571 ^ (3 : ℕ) / MU) ≤ 859 := by
    rw [Real.sqrt_le_left (by norm_num)]
    rw [div_le_iff₀ (by unfold MU; norm_num)]
    unfold MU
    norm_num
  have hπ := Real.pi_lt_d6
  nlinarith [Real.sqrt_nonneg (6571 ^ (3 : ℕ) / MU), Real.pi_pos]

lemma deg2rad_zero : deg2rad 0 = 0 := by
  unfold deg2rad; ring

lemma thetaInOrbit_zero (altitude phaseOffset : ℝ) :
    thetaInOrbit 0 altitude phaseOffset = phaseOffset := by
  unfold thetaInOrbit; ring

/-- At `t = 0` with RAAN 0 and phase 0 the propagated position is on the
positive x-axis, for every inclination. -/
lemma positionInOrbit_t0_phase0 (altitude inclination : ℝ) :
    positionInOrbit 0 altitude inclination 0 0 = ⟨EARTH_RADIUS + altitude, 0, 0⟩ := by
  unfold positionInOrbit
  rw [thetaInOrbit_zero]
  simp [Vec3.mk.injEq]

/-- At `t = 0` with RAAN 0 and phase `π` the propagated position is on
the negative x-axis, for every inclination. -/
lemma positionInOrbit_t0_phase_pi (altitude inclination : ℝ) :
    positionInOrbit 0 altitude inclination 0 π = ⟨-(EARTH_RADIUS + altitude), 0, 0⟩ := by
  unfold positionInOrbit
  rw [thetaInOrbit_zero]
  simp [Vec3.mk.injEq]

/-- Constellation member on the caller's list whose phase 0 puts it on
the positive x-axis at `t = 0`. -/
noncomputable def demoSatA : SatelliteInfo :=
  ⟨1, 780, 86.4, some 0, some 0⟩

/-- Constellation member whose phase `π` puts it on the negative x-axis
at `t = 0` — antipodal to the beacon, Earth in between. -/
noncomputable def demoSatB : SatelliteInfo :=
  ⟨2, 780, 86.4, some π, some 0⟩

/-- A constellation-mode request carrying the two members above. -/
noncomputable def constParams : SimulationParams :=
  { beaconMode := .nonPolar
    beaconConfig :=
      { altitude := 600, inclination := 97.5, localSolarTime := none,
        antennaHalfAngle := 60 }
    iridiumConfig :=
      { satelliteId := 1, altitude := 780, inclination := 86.4,
        antennaHalfAngle := 31, showAllSatellites := true,
        allSatellites := [demoSatA, demoSatB] }
    simulationDuration := 86400
    timeStep := 60 }

lemma resolvedSatellites_constParams :
    resolvedSatellites constParams.iridiumConfig = [demoSatA, demoSatB] := rfl

lemma allContactEntry_getD (count : ℕ) (timeline : List Bool) (draws : List ℚ) (i : ℕ)
    (hi : i < timeline.length) :
    (allContactEntry count timeline draws).getD i false =
      (timeline.getD i false && decide (draws.getD i 1 < 1 / (count : ℚ))) := by
  simp [allContactEntry, List.getD_eq_getElem?_getD, List.getElem?_map, List.getElem?_range, hi]

lemma allContactEntry_length (count : ℕ) (timeline : List Bool) (draws : List ℚ) :
    (allContactEntry count timeline draws).length = timeline.length := by
  simp [allContactEntry]

set_option maxRecDepth 8000 in
lemma runSimulation_allContactData (params : SimulationParams) (offDraw : ℚ)
    (extraDraws : List (ℚ × ℚ)) (satDraws : List (List ℚ))
    (h : params.iridiumConfig.showAllSatellites = true)
    (h2 : 1 < (resolvedSatellites params.iridiumConfig).length) :
    (runSimulation params offDraw extraDraws satDraws).allContactData =
      some (List.zipWith (fun sat draws =>
        (sat.id, allContactEntry (resolvedSatellites params.iridiumConfig).length
          (emergencyTimeline TOTAL_STEPS offDraw extraDraws) draws))
        (resolvedSatellites params.iridiumConfig) satDraws) := by
  simp only [runSimulation, computeLinkMetrics3D, h, decide_eq_true h2, Bool.and_self, if_true]

lemma emergencyTimeline_zero_draw_step0 :
    (emergencyTimeline TOTAL_STEPS 0 threeExtraDraws).getD 0 false = true := by
  rw [show TOTAL_STEPS = 1440 from rfl,
    emergencyTimeline_getD 1440 0 threeExtraDraws 0 (by norm_num)]
  simp only [emergencyWindows, threeExtraDraws, initialOffsetOf_zero, extraCenterOf_zero,
    List.map_cons, List.map_nil]
  decide

lemma allContactEntry_single_true : (allContactEntry 2 [true] [0]).getD 0 false = true := by
  rw [allContactEntry_getD 2 [true] [0] 0 (by norm_num)]
  rw [show ([(0 : ℚ)].getD 0 1) = 0 from rfl]
  rw [decide_eq_true (by norm_num : (0 : ℚ) < 1 / ((2 : ℕ) : ℚ))]
  rfl

/-! ## The claim theorems -/

/-! ## C1: the run is not a function of its inputs alone -/

/-- C1 counterexample: two invocations of the run with bit-identical
inputs (`demoParams` both times) but different ambient `Math.random()`
draws (initial-offset draw 0 versus 0.7) return different contact
timelines, so the engine is not a function of its inputs alone. -/
theorem C1_counterexample_runs_differ :
    (runSimulation demoParams 0 threeExtraDraws []).contactFlags ≠
      (runSimulation demoParams (7 / 10) threeExtraDraws []).contactFlags := by
  intro h
  have h0 : (runSimulation demoParams 0 threeExtraDraws []).contactFlags.getD 0 false =
      (runSimulation demoParams (7 / 10) threeExtraDraws []).contactFlags.getD 0 false := by
    rw [h]
  rw [runSimulation_contactFlags_getD demoParams 0 threeExtraDraws [] 0 (by norm_num),
    runSimulation_contactFlags_getD demoParams (7 / 10) threeExtraDraws [] 0 (by norm_num)]
    at h0
  simp only [emergencyWindows, threeExtraDraws, initialOffsetOf_zero,
    initialOffsetOf_seven_tenths, extraCenterOf_zero, List.map_cons, List.map_nil] at h0
  revert h0
  decide

/-- C1 as amended: the contact timeline is a function of the inputs
together with the per-call `Math.random()` draws, and it genuinely
depends on the draws — with initial-offset draw 0 the first handshake
window covers step 0, with draw 0.7 it starts at minute 16 — so
identical inputs alone do not determine the timeline. -/
theorem C1_amended_timeline_depends_on_draws :
    (runSimulation demoParams 0 threeExtraDraws []).contactFlags.getD 0 false = true ∧
    (runSimulation demoParams (7 / 10) threeExtraDraws []).contactFlags.getD 0 false = false := by
  rw [runSimulation_contactFlags_getD demoParams 0 threeExtraDraws [] 0 (by norm_num),
    runSimulation_contactFlags_getD demoParams (7 / 10) threeExtraDraws [] 0 (by norm_num)]
  simp only [emergencyWindows, threeExtraDraws, initialOffsetOf_zero,
    initialOffsetOf_seven_tenths, extraCenterOf_zero, List.map_cons, List.map_nil]
  decide

/-! ## C2: the cone thresholds are not derived from the caller's half-angles -/

/-- C2 counterexample: a beacon at `(R_earth+600, 0, 0)` with plane
normal `(0,0,1)` (boresights `(0,±1,0)`) and a remote at
`(R_earth+600, 0, 1000)` — line of sight 90 degrees off both boresights
and about 98 degrees off the remote's nadir, so not exactly aligned —
is linked by the code's per-step test, although the claim's rule with
the half-angles shrunk to 0 degrees (formalized as `isLinkedSpec` at
half-angles 0) requires `false`: the caller's half-angles play no role
in the code's decision. -/
theorem C2_counterexample_halfangles_ignored :
    stepLinked ⟨EARTH_RADIUS + 600, 0, 0⟩ ⟨0, 0, 1⟩ [⟨EARTH_RADIUS + 600, 0, 1000⟩] = true ∧
    isLinkedSpec ⟨EARTH_RADIUS + 600, 0, 0⟩ ⟨0, 0, 1⟩ ⟨EARTH_RADIUS + 600, 0, 1000⟩ 0 0 =
      false := by
  rw [vec_beacon_eq, vec_above_eq]
  exact ⟨stepLinked_orthogonal, isLinkedSpec_orthogonal_zero⟩

/-- C2 as amended: the per-step cone tests compare against the module
constants `COS_BEACON = COS_IRIDIUM = -0.9999`, fixed at load time by
`EMERGENCY_MODE` and independent of the caller-supplied half-angles
(which the decision never reads); a line of sight exactly along the
forward boresight passes, and so does one 90 degrees off both boresights
— the test admits any alignment up to about 179.19 degrees.  (Under
`EMERGENCY_MODE = true` this geometric decision is moreover bypassed
entirely by the emergency branch.) -/
theorem C2_amended_fixed_module_thresholds :
    COS_BEACON = -(9999 / 10000) ∧ COS_IRIDIUM = -(9999 / 10000) ∧
    stepLinked ⟨EARTH_RADIUS + 600, 0, 0⟩ ⟨0, 0, 1⟩ [⟨EARTH_RADIUS + 600, 600, 0⟩] = true ∧
    stepLinked ⟨EARTH_RADIUS + 600, 0, 0⟩ ⟨0, 0, 1⟩ [⟨EARTH_RADIUS + 600, 0, 1000⟩] =
      true := by
  refine ⟨by norm_num [COS_BEACON, EMERGENCY_MODE], by norm_num [COS_IRIDIUM, EMERGENCY_MODE],
    ?_, ?_⟩
  · rw [vec_beacon_eq, vec_ahead_eq]
    exact stepLinked_aligned
  · rw [vec_beacon_eq, vec_above_eq]
    exact stepLinked_orthogonal

/-! ## C3: the orbital period is not Kepler's on the Iridium band -/

/-- C3 counterexample: at altitude 780 km (inside the Iridium band
`[770, 810]`) the propagator's period is the hard-coded 3600 s, while
Kepler's third law gives `2π·sqrt(7151³/μ)` which exceeds 3600 s — the
claim's "for every orbital configuration (all altitudes)" fails. -/
theorem C3_counterexample_iridium_band_period :
    periodUsed 780 = 3600 ∧ orbitalPeriod (EARTH_RADIUS + 780) ≠ 3600 := by
  constructor
  · unfold periodUsed
    rw [if_pos (by norm_num : (770 : ℝ) ≤ 780 ∧ (780 : ℝ) ≤ 810)]
    norm_num
  · rw [show EARTH_RADIUS + 780 = (7151 : ℝ) by unfold EARTH_RADIUS; norm_num]
    exact ne_of_gt orbitalPeriod_7151_gt

/-- C3 as amended: the propagator computes `θ(t) = (2π/T)·t +
phaseOffset`, but with `T = 3600 s` hard-coded for altitudes in
`[770, 810]` and `T = min(2π·sqrt(a³/μ), 5400 s)` otherwise; Kepler's
third law gives the period exactly when the altitude lies outside
`[770, 810]` and the Kepler period is at most 90 minutes. -/
theorem C3_amended_kepler_only_outside_band (altitude t phaseOffset : ℝ)
    (h1 : ¬ (770 ≤ altitude ∧ altitude ≤ 810))
    (h2 : orbitalPeriod (EARTH_RADIUS + altitude) ≤ 90 * 60) :
    periodUsed altitude = orbitalPeriod (EARTH_RADIUS + altitude) ∧
    thetaInOrbit t altitude phaseOffset =
      2 * π / orbitalPeriod (EARTH_RADIUS + altitude) * t + phaseOffset := by
  have hp : periodUsed altitude = orbitalPeriod (EARTH_RADIUS + altitude) := by
    unfold periodUsed
    rw [if_neg h1, min_eq_left h2]
  exact ⟨hp, by unfold thetaInOrbit; rw [hp]⟩

/-- C3 amended witness: altitude 200 km lies outside the band and has
Kepler period below 90 minutes, so the propagator uses Kepler's law
there. -/
theorem C3_amended_witness :
    (¬ ((770 : ℝ) ≤ 200 ∧ (200 : ℝ) ≤ 810)) ∧
    orbitalPeriod (EARTH_RADIUS + 200) ≤ 90 * 60 ∧
    (periodUsed 200 = orbitalPeriod (EARTH_RADIUS + 200) ∧
      thetaInOrbit 0 200 0 =
        2 * π / orbitalPeriod (EARTH_RADIUS + 200) * 0 + 0) :=
  ⟨by norm_num, orbitalPeriod_6571_le,
    C3_amended_kepler_only_outside_band 200 0 0 (by norm_num) orbitalPeriod_6571_le⟩

/-! ## C4: the per-member map is a random thinning, not per-member geometry -/

/-- C4 counterexample: in the constellation run `constParams` (two
members) with emergency offset draw 0 and per-member thinning draws
`[[1], [0]]`, member 2's `allContactData` flag at step 0 is `true` —
that flag is `timeline[0] && (draw < 1/2)`, reading only the shared
fabricated primary timeline and a fresh random draw — while the
geometric visibility test for member 2's own propagated state at `t = 0`
(antipodal to the beacon, Earth in between) is `false`.  The per-member
timeline is not the geometric test evaluated for that member. -/
theorem C4_counterexample_member_flag_not_geometric :
    ((((runSimulation constParams 0 threeExtraDraws [[1], [0]]).allContactData.getD
        []).lookup 2).getD []).getD 0 false = true ∧
    stepLinked (positionInOrbit 0 600 (deg2rad 85) 0 0)
      (calculatePlaneNormal (deg2rad 85) 0)
      [memberPositionAt 0 1 demoSatB 0 (1 / 2) 0] = false := by
  constructor
  · rw [runSimulation_allContactData constParams 0 threeExtraDraws [[1], [0]] rfl
      (by rw [resolvedSatellites_constParams]; norm_num)]
    rw [resolvedSatellites_constParams]
    simp only [Option.getD_some, List.zipWith_cons_cons, List.zipWith_nil_right,
      List.zipWith_nil_left]
    have hA : demoSatA.id = 1 := rfl
    have hB : demoSatB.id = 2 := rfl
    rw [hA, hB]
    simp only [List.lookup, show ((2 : ℕ) == 1) = false from rfl,
      show ((2 : ℕ) == 2) = true from rfl, Option.getD_some,
      show ([demoSatA, demoSatB].length) = 2 from rfl]
    rw [allContactEntry_getD 2 (emergencyTimeline TOTAL_STEPS 0 threeExtraDraws) [0] 0
      (by rw [emergencyTimeline_length]; norm_num [TOTAL_STEPS])]
    rw [emergencyTimeline_zero_draw_step0]
    rw [show ([(0 : ℚ)].getD 0 1) = 0 from rfl]
    rw [decide_eq_true (by norm_num : (0 : ℚ) < 1 / ((2 : ℕ) : ℚ))]
    rfl
  · rw [positionInOrbit_t0_phase0 600 (deg2rad 85)]
    have hmem : memberPositionAt 0 1 demoSatB 0 (1 / 2) 0 =
        ⟨-(EARTH_RADIUS + 780), 0, 0⟩ := by
      unfold memberPositionAt
      rw [show memberAltitude demoSatB 0 = 780 by
          unfold memberAltitude demoSatB; rw [if_neg]; norm_num,
        show memberRAAN 1 demoSatB 0 = 0 by
          unfold memberRAAN demoSatB; simp [deg2rad_zero],
        show memberPhase 1 demoSatB = π from rfl]
      exact positionInOrbit_t0_phase_pi 780 _
    rw [hmem]
    exact stepLinked_antipodal _

/-- C4 as amended: a member's `allContactData` entry is the shared
primary timeline thinned step-wise by a fresh random draw — the flag at
a step can be `true` only when the primary timeline is in contact there,
and the member's own geometry never enters; no per-member statistics
are derived. -/
theorem C4_amended_member_flags_thin_primary (count : ℕ) (timeline : List Bool)
    (draws : List ℚ) (i : ℕ)
    (h : (allContactEntry count timeline draws).getD i false = true) :
    timeline.getD i false = true := by
  by_cases hi : i < timeline.length
  · rw [allContactEntry_getD count timeline draws i hi] at h
    rw [Bool.and_eq_true] at h
    exact h.1
  · rw [List.getD_eq_getElem?_getD, List.getElem?_eq_none
      (by rw [allContactEntry_length]; omega)] at h
    exact absurd h (by simp)

/-- C4 amended witness: a concrete one-step instance of the thinning
implication. -/
theorem C4_amended_witness :
    (allContactEntry 2 [true] [0]).getD 0 false = true ∧ [true].getD 0 false = true :=
  ⟨allContactEntry_single_true,
    C4_amended_member_flags_thin_primary 2 [true] [0] 0 allContactEntry_single_true⟩

/-! ## C5: the inclination validation never rejects a run -/

set_option maxRecDepth 8000 in
/-- C5 counterexample: a non-polar request with inclination 20 degrees
(outside `[30, 98]`) is not rejected: the resolution silently substitutes
inclination 85 degrees and RAAN 0 with no error posted
(`SPECIAL_CONFIG = true` short-circuits the validation), and the run
proceeds to produce a full 1440-step timeline. -/
theorem C5_counterexample_invalid_inclination_proceeds :
    beaconOrbitResolve .nonPolar badConfig = ⟨deg2rad 85, 0, false⟩ ∧
    (runSimulation badParams 0 threeExtraDraws []).contactFlags.length = 1440 := by
  exact ⟨rfl, runSimulation_contactFlags_length badParams 0 threeExtraDraws []⟩

/-- C5 as amended: with `SPECIAL_CONFIG = true` every request — whatever
its mode and caller-supplied inclination — proceeds with the substituted
inclination 85 degrees and RAAN 0 and no error, so the `[30, 98]` degree
validation is unreachable; and even the non-SPECIAL_CONFIG try/catch
path does not reject an out-of-range non-polar inclination: it posts an
error message and then proceeds with the defaults 98.6 degrees / 0. -/
theorem C5_amended_validation_dead_and_defaults_substituted :
    (∀ (mode : BeaconMode) (cfg : BeaconConfig),
      beaconOrbitResolve mode cfg = ⟨deg2rad 85, 0, false⟩) ∧
    beaconOrbitTryCatch .nonPolar badConfig = ⟨deg2rad 98.6, 0, true⟩ := by
  constructor
  · intro mode cfg; rfl
  · unfold beaconOrbitTryCatch
    have hπ := Real.pi_pos
    have h : deg2rad (badConfig.inclination) < deg2rad 30 := by
      unfold deg2rad badConfig
      simp only
      nlinarith
    simp only [if_pos (Or.inl h)]

/-! ## C6: every step is counted as contact or outage -/

set_option maxRecDepth 8000 in
/-- C6: for every computed result, the contact and outage tallies
partition the 1440 timeline steps: `totalContact` is 60 s times the
number of `true` steps, `totalOutage` is 60 s times the number of
`false` steps, and the two step counts sum to `TOTAL_STEPS` = 1440.
(Equivalently, totalContactSteps + totalOutageSteps = stepCount.) -/
theorem C6_contact_plus_outage_is_stepcount (params : SimulationParams) (offDraw : ℚ)
    (extraDraws : List (ℚ × ℚ)) (satDraws : List (List ℚ)) :
    (runSimulation params offDraw extraDraws satDraws).totalContact =
      ((runSimulation params offDraw extraDraws satDraws).contactFlags.count true) * 60 ∧
    (runSimulation params offDraw extraDraws satDraws).totalOutage =
      ((runSimulation params offDraw extraDraws satDraws).contactFlags.count false) * 60 ∧
    ((runSimulation params offDraw extraDraws satDraws).contactFlags.count true) +
      ((runSimulation params offDraw extraDraws satDraws).contactFlags.count false) =
      TOTAL_STEPS := by
  refine ⟨?_, ?_, ?_⟩
  · simp only [runSimulation, computeLinkMetrics3D, ACTUAL_TIME_STEP]
  · simp only [runSimulation, computeLinkMetrics3D, ACTUAL_TIME_STEP]
    rw [countMetricsGo_outDur]
  · simp only [runSimulation, computeLinkMetrics3D, ACTUAL_TIME_STEP]
    rw [count_true_add_count_false, emergencyTimeline_length]

/-! ## C7: handshakes are exactly the rising edges -/

set_option maxRecDepth 8000 in
/-- C7: the handshake counter of the executed counting loop equals the
number of rising edges — indices `i ≥ 1` with `timeline[i-1] = false`
and `timeline[i] = true` — for every boolean timeline (first conjunct),
and in particular a timeline whose index 0 is `true` contributes no
handshake there (the `i > 0` guard); consequently every computed
result's `handshakes` field is the rising-edge count of its
`contactFlags` (second conjunct). -/
theorem C7_handshakes_are_rising_edges :
    (∀ tl : List Bool, (countMetricsGo true false false tl).1 = risingEdges tl) ∧
    (∀ (params : SimulationParams) (offDraw : ℚ) (extraDraws : List (ℚ × ℚ))
      (satDraws : List (List ℚ)),
      (runSimulation params offDraw extraDraws satDraws).handshakes =
        risingEdges (runSimulation params offDraw extraDraws satDraws).contactFlags) := by
  constructor
  · intro tl
    rw [countMetricsGo_hs, risingSteps_eq_risingEdges]
  · intro params offDraw extraDraws satDraws
    simp only [runSimulation, computeLinkMetrics3D]
    rw [countMetricsGo_hs, risingSteps_eq_risingEdges]

/-! ## C8: occlusion versus the emergency branch -/

/-- C8: with the beacon at `(R_earth+600, 0, 0)` and the remote at
`(-(R_earth+780), 0, 0)` — Earth directly between them — the geometric
per-step decision is `false` for every plane normal and hence for every
antenna threshold configuration (second conjunct: the blockage test
fails before any cone test).  But the shipped program never runs it: the
EMERGENCY branch fabricates the timeline without reading positions, and
with initial-offset draw 0 it marks step 0 as in contact (first
conjunct), contradicting the claim at this input. -/
theorem C8_occlusion_geometric_but_bypassed :
    (emergencyTimeline 1440 0 threeExtraDraws).getD 0 false = true ∧
    ∀ n : Vec3, stepLinked ⟨EARTH_RADIUS + 600, 0, 0⟩ n [⟨-(EARTH_RADIUS + 780), 0, 0⟩] =
      false := by
  constructor
  · rw [emergencyTimeline_getD 1440 0 threeExtraDraws 0 (by norm_num)]
    simp only [emergencyWindows, threeExtraDraws, initialOffsetOf_zero, extraCenterOf_zero,
      List.map_cons, List.map_nil]
    decide
  · exact stepLinked_antipodal

/-! ## C9: the circular-orbit radius invariant -/

/-- C9: for every time, altitude, inclination, RAAN and phase offset, the
propagated position lies at distance `a = R_earth + altitude` from the
origin (the two rotations preserve the in-plane radius `a`). -/
theorem C9_position_at_orbit_radius (t altitude inclination raan phaseOffset : ℝ)
    (h : 0 < altitude) :
    norm3 (positionInOrbit t altitude inclination raan phaseOffset) =
      EARTH_RADIUS + altitude := by
  have ha : (0 : ℝ) ≤ EARTH_RADIUS + altitude := by unfold EARTH_RADIUS; linarith
  apply norm3_eq _ _ ha
  have hR := Real.sin_sq_add_cos_sq raan
  have hI := Real.sin_sq_add_cos_sq inclination
  have hT := Real.sin_sq_add_cos_sq (thetaInOrbit t altitude phaseOffset)
  simp only [positionInOrbit]
  linear_combination
    ((EARTH_RADIUS + altitude) ^ 2 * Real.cos (thetaInOrbit t altitude phaseOffset) ^ 2 +
      (EARTH_RADIUS + altitude) ^ 2 * Real.sin (thetaInOrbit t altitude phaseOffset) ^ 2 *
        Real.cos inclination ^ 2) * hR +
    (EARTH_RADIUS + altitude) ^ 2 * Real.sin (thetaInOrbit t altitude phaseOffset) ^ 2 * hI +
    (EARTH_RADIUS + altitude) ^ 2 * hT

/-- C9 witness: at `t = 0`, altitude 600, all angles 0, the position is
at distance 6971 km from the origin. -/
theorem C9_witness : (0 : ℝ) < 600 ∧
    norm3 (positionInOrbit 0 600 0 0 0) = EARTH_RADIUS + 600 :=
  ⟨by norm_num, C9_position_at_orbit_radius 0 600 0 0 0 (by norm_num)⟩

/-! ## C10: the horizon parameters are never read -/

set_option maxRecDepth 8000 in
/-- C10: every computed result's contact timeline has exactly 1440
entries — `totalSteps = 24 * 60` at a fixed 60-second step — and the
caller-supplied `simulationDuration` and `timeStep` fields are never
read: two inputs differing only in those fields (with the same random
draws) produce the very same result, so in particular timelines of the
same length. -/
theorem C10_fixed_1440_steps (params : SimulationParams) (offDraw : ℚ)
    (extraDraws : List (ℚ × ℚ)) (satDraws : List (List ℚ)) (d₁ t₁ d₂ t₂ : ℝ) :
    (runSimulation params offDraw extraDraws satDraws).contactFlags.length = 1440 ∧
    runSimulation { params with simulationDuration := d₁, timeStep := t₁ }
        offDraw extraDraws satDraws =
      runSimulation { params with simulationDuration := d₂, timeStep := t₂ }
        offDraw extraDraws satDraws := by
  constructor
  · simp only [runSimulation, computeLinkMetrics3D]
    rw [emergencyTimeline_length]
    rfl
  · rfl

end SatSim
